import Mathlib

/-!
# Verification of the CGA calculator core (`cga_calculator_app.py`)

Shallow embedding of the rate/factor resolution and deduction calculation
engine of the charitable gift annuity calculator (source lines 89-126).

Modelling choices:
* Ages are `ℤ` (the source uses Python ints from `st.number_input`).
* Money, rates and factors are `ℚ` (the source uses Python floats; the
  arithmetic of the core is modelled exactly over the rationals).
* A pandas `DataFrame` indexed by `Age` with a single `Rate` column is an
  association list `List (ℤ × ℚ)`; a `MultiIndex (Age1, Age2)` frame is
  keyed by `ℤ × ℤ`.  The factor frames additionally carry, per row, an
  association list from the discount-rate column to the factor value.
* The `Rate_{x:.1f}` column label produced at source line 106 is identified
  with the integer number of tenths it displays (e.g. `"Rate_4.2"` ↦ `42`);
  the `%.1f` format is injective in that value, and Python's `%.1f`
  rounding is round-half-to-even, modelled by `rate_column` on the exact
  rational value.
* A pandas `KeyError` raised by `.loc` (present row label, absent column
  label) is the `Except.error PandasError.keyError` outcome.
* `is_joint` is the `"Yes"/"No"` selectbox at line 91, modelled as `Bool`
  (`true` = `"Yes"`).
-/

/-- A pandas lookup error: `.loc` with a label absent from the axis. -/
inductive PandasError where
  | keyError : PandasError
deriving DecidableEq, Repr

/-- Association-list lookup, the model of `key in df.index` / `df.loc[key]`
(first matching row; the tables have unique keys). -/
def tbl_get {α β : Type} [DecidableEq α] : List (α × β) → α → Option β
  | [], _ => none
  | (k, v) :: rest, a => if a = k then some v else tbl_get rest a

/-- Single-life rate table: `Age → Rate` (source `rate_table`). -/
abbrev RateDf := List (ℤ × ℚ)

/-- Joint-life rate table: `(Age1, Age2) → Rate` (source `joint_rate_table`). -/
abbrev JointRateDf := List ((ℤ × ℤ) × ℚ)

/-- Single-life factor table: `Age → (discount column → factor)`
(source `annuity_factors_df`). -/
abbrev FactorDf := List (ℤ × List (ℤ × ℚ))

/-- Joint-life factor table: `(Age1, Age2) → (discount column → factor)`
(source `joint_annuity_factors_df`). -/
abbrev JointFactorDf := List ((ℤ × ℤ) × List (ℤ × ℚ))

/-- The sidebar inputs of one calculation (source lines 89-96). -/
structure GiftRequest where
  donor_age : ℤ
  joint_annuitant_age : ℤ
  is_joint : Bool
  gift_amount : ℚ
  payout_frequency : String
  irs_7520_rate : ℚ
deriving DecidableEq, Repr

/-- Every value the result section displays (source lines 98-126). -/
structure AnnuityResult where
  rate : ℚ
  factor : ℚ
  multiplier : ℚ
  adjusted_annuity_factor : ℚ
  annual_payout : ℚ
  estimated_deduction : ℚ
  factor_warning : Bool
deriving DecidableEq, Repr

/-- The gift-amount widget's lower bound: line 94 passes `min_value=1000`,
so the form never yields a gift amount below 1000. -/
def gift_amount_min : ℚ := 1000

/-- Rate resolution, source lines 99-103:

```
if is_joint == "Yes" and not joint_rate_table.empty:
    rate_row = joint_rate_table.loc[(donor_age, joint_annuitant_age)] \
        if (donor_age, joint_annuitant_age) in joint_rate_table.index else None
    annuity_rate = rate_row["Rate"] if rate_row is not None else 6.0
else:
    annuity_rate = rate_table.loc[donor_age, "Rate"] \
        if donor_age in rate_table.index else 6.0
```
-/
def annuity_rate (req : GiftRequest) (rate_table : RateDf)
    (joint_rate_table : JointRateDf) : ℚ :=
  if req.is_joint = true ∧ joint_rate_table ≠ [] then
    (tbl_get joint_rate_table (req.donor_age, req.joint_annuitant_age)).getD 6
  else
    (tbl_get rate_table req.donor_age).getD 6

/-- Source line 106: `rate_column = f"Rate_{irs_7520_rate:.1f}"`, identified
with the tenths value the label displays (`"Rate_4.2"` ↦ `42`).  `%.1f`
rounds the value to one decimal, ties to even; that is, the key is
`10 * irs_7520_rate` rounded half-to-even to an integer.  Written out on
the numerator `n = 10 * num` and denominator `d = den > 0` of the rate:
the floor is `n / d`, the fractional part is `(n % d) / d`, compared with
`1/2` by comparing `2 * (n % d)` with `d`. -/
def rate_column (irs_7520_rate : ℚ) : ℤ :=
  let n : ℤ := 10 * irs_7520_rate.num
  let d : ℤ := irs_7520_rate.den
  let f : ℤ := n / d
  let r : ℤ := n % d
  if 2 * r < d then f
  else if d < 2 * r then f + 1
  else if f % 2 = 0 then f else f + 1

/-- Factor resolution, source lines 107-113:

```
if is_joint == "Yes" and (donor_age, joint_annuitant_age) in joint_annuity_factors_df.index:
    annuity_factor = joint_annuity_factors_df.loc[(donor_age, joint_annuitant_age), rate_column]
elif is_joint == "No" and donor_age in annuity_factors_df.index:
    annuity_factor = annuity_factors_df.loc[donor_age, rate_column]
else:
    annuity_factor = 9.0
    st.warning("Annuity factor fallback value used. Check IRS table coverage.")
```

When the row label is present but the `rate_column` column is absent,
pandas `.loc` raises `KeyError`; returned here as `Except.error`.  The
`Bool` of the `ok` payload records whether `st.warning` fired. -/
def annuity_factor (req : GiftRequest) (annuity_factors_df : FactorDf)
    (joint_annuity_factors_df : JointFactorDf) : Except PandasError (ℚ × Bool) :=
  let col := rate_column req.irs_7520_rate
  match req.is_joint,
        tbl_get joint_annuity_factors_df (req.donor_age, req.joint_annuitant_age),
        tbl_get annuity_factors_df req.donor_age with
  | true, some row, _ =>
      match tbl_get row col with
      | some v => .ok (v, false)
      | none => .error .keyError
  | false, _, some row =>
      match tbl_get row col with
      | some v => .ok (v, false)
      | none => .error .keyError
  | _, _, _ => .ok (9, true)

/-- Source lines 115-120: the frequency-adjustment dictionary. -/
def frequency_adjustments : List (String × ℚ) :=
  [("Annual", 1), ("Semiannual", 0.975), ("Quarterly", 0.96), ("Monthly", 0.945)]

/-- Source line 121: `frequency_adjustments.get(payout_frequency, 1.0)`. -/
def adjustment (payout_frequency : String) : ℚ :=
  (tbl_get frequency_adjustments payout_frequency).getD 1

/-- The whole calculation, source lines 98-126.  Propagates the pandas
`KeyError` that lines 108/110 can raise; otherwise returns every displayed
value (lines 124-126):

```
annual_payout = gift_amount * annuity_rate / 100
adjusted_annuity_factor = annuity_factor * adjustment
estimated_deduction = annual_payout * adjusted_annuity_factor
```
-/
def calculate (req : GiftRequest) (rate_table : RateDf)
    (joint_rate_table : JointRateDf) (annuity_factors_df : FactorDf)
    (joint_annuity_factors_df : JointFactorDf) : Except PandasError AnnuityResult :=
  let rate := annuity_rate req rate_table joint_rate_table
  match annuity_factor req annuity_factors_df joint_annuity_factors_df with
  | .error e => .error e
  | .ok (factor, warn) =>
      let adj := adjustment req.payout_frequency
      let payout := req.gift_amount * rate / 100
      let adjusted := factor * adj
      .ok { rate := rate, factor := factor, multiplier := adj,
            adjusted_annuity_factor := adjusted,
            annual_payout := payout,
            estimated_deduction := payout * adjusted,
            factor_warning := warn }

/-! ## Helper lemmas -/

/-- A successful association-list lookup implies the list is nonempty. -/
theorem tbl_get_ne_nil {α β : Type} [DecidableEq α] {l : List (α × β)} {a : α}
    {b : β} (h : tbl_get l a = some b) : l ≠ [] := by
  intro he
  subst he
  simp [tbl_get] at h

/-- For a rate of the form `k/10`, the numerator/denominator of the reduced
fraction satisfy `10 * num = k * den`. -/
theorem rate_key_cross_mul (k : ℤ) :
    10 * ((k : ℚ) / 10).num = k * (((k : ℚ) / 10).den : ℤ) := by
  have hden : ((((k : ℚ) / 10).den : ℚ)) ≠ 0 := by
    exact_mod_cast ((k : ℚ) / 10).den_nz
  have h1 : ((((k : ℚ) / 10).num : ℚ)) / ((((k : ℚ) / 10).den : ℚ)) =
      (k : ℚ) / 10 := Rat.num_div_den _
  rw [div_eq_div_iff hden (by norm_num : (10 : ℚ) ≠ 0)] at h1
  have h2 : ((10 * ((k : ℚ) / 10).num : ℤ) : ℚ) =
      ((k * (((k : ℚ) / 10).den : ℤ) : ℤ) : ℚ) := by
    push_cast
    linarith [h1]
  exact_mod_cast h2

/-! ## Claims -/

/-- C6: the discount-key quantization at line 106 is a pure total function to
one-decimal granularity: 4.2, 4.24 and 4.249999 all map to the key for
"4.2" (tenths value 42), and any value already at the granularity maps to
itself. -/
theorem rate_column_quantization :
    rate_column (42/10) = 42 ∧ rate_column (424/100) = 42 ∧
    rate_column (4249999/1000000) = 42 ∧
    ∀ k : ℤ, rate_column ((k : ℚ) / 10) = k := by
  refine ⟨by with_unfolding_all rfl, by with_unfolding_all rfl,
    by with_unfolding_all rfl, fun k => ?_⟩
  have hd : (((( k : ℚ) / 10).den : ℤ)) ≠ 0 := by
    exact_mod_cast ((k : ℚ) / 10).den_nz
  have hdpos : (0 : ℤ) < (((k : ℚ) / 10).den : ℤ) := by
    exact_mod_cast ((k : ℚ) / 10).den_pos
  simp only [rate_column, rate_key_cross_mul k]
  rw [Int.mul_ediv_cancel _ hd, Int.mul_emod_left]
  simp [hdpos]

/-- C7: the frequency multiplier is exactly 1.0 for Annual, 0.975 for
Semiannual, 0.96 for Quarterly, 0.945 for Monthly, and 1.0 for any other
string (the `dict.get` default at line 121), with no error. -/
theorem adjustment_enumeration :
    adjustment "Annual" = 1 ∧ adjustment "Semiannual" = 0.975 ∧
    adjustment "Quarterly" = 0.96 ∧ adjustment "Monthly" = 0.945 ∧
    ∀ s : String, s ≠ "Annual" → s ≠ "Semiannual" → s ≠ "Quarterly" →
      s ≠ "Monthly" → adjustment s = 1 := by
  refine ⟨rfl, rfl, rfl, rfl, fun s h1 h2 h3 h4 => ?_⟩
  simp [adjustment, frequency_adjustments, tbl_get, h1, h2, h3, h4]

/-- C7 witness: an out-of-enumeration frequency gets multiplier 1. -/
theorem adjustment_enumeration_witness : adjustment "BiWeekly" = 1 :=
  adjustment_enumeration.2.2.2.2 "BiWeekly" (by decide) (by decide) (by decide)
    (by decide)

/-- C9: the calculation is deterministic — a pure function of the request
and the four tables; equal inputs give results equal in every field. -/
theorem calculate_deterministic (r1 r2 : GiftRequest) (a1 a2 : RateDf)
    (b1 b2 : JointRateDf) (c1 c2 : FactorDf) (d1 d2 : JointFactorDf)
    (hr : r1 = r2) (ha : a1 = a2) (hb : b1 = b2) (hc : c1 = c2) (hd : d1 = d2) :
    calculate r1 a1 b1 c1 d1 = calculate r2 a2 b2 c2 d2 := by
  subst hr ha hb hc hd
  rfl

/-- C9 witness: determinism at a concrete request and tables. -/
theorem calculate_deterministic_witness :
    calculate ⟨75, 67, false, 100000, "Annual", 42/10⟩ [(75, 63/10)] []
        [(75, [(42, 95/10)])] [] =
      calculate ⟨75, 67, false, 100000, "Annual", 42/10⟩ [(75, 63/10)] []
        [(75, [(42, 95/10)])] [] :=
  calculate_deterministic _ _ _ _ _ _ _ _ _ _ rfl rfl rfl rfl rfl

/-- C10: a joint request against an empty joint rate table falls through
(line 99's `not joint_rate_table.empty` guard) to the single-life lookup on
the donor age, with 6.0 only if that also misses; the joint annuitant age
is ignored there. -/
theorem joint_empty_rate_single_fallthrough (req : GiftRequest) (rt : RateDf)
    (_hj : req.is_joint = true) :
    annuity_rate req rt [] = (tbl_get rt req.donor_age).getD 6 ∧
    ∀ b : ℤ, annuity_rate { req with joint_annuitant_age := b } rt [] =
      annuity_rate req rt [] := by
  constructor
  · simp [annuity_rate]
  · intro b
    simp [annuity_rate]

/-- C10 witness: joint request, empty joint table, donor age present in the
single-life table. -/
theorem joint_empty_rate_single_fallthrough_witness :
    annuity_rate ⟨75, 67, true, 100000, "Annual", 42/10⟩ [(75, 63/10)] [] =
      (tbl_get ([(75, 63/10)] : RateDf) 75).getD 6 :=
  (joint_empty_rate_single_fallthrough ⟨75, 67, true, 100000, "Annual", 42/10⟩
    [(75, 63/10)] rfl).1

/-- C1 counterexample: a joint request against an *empty* joint rate table
does not get the 6.0 fallback — line 99's `not joint_rate_table.empty`
guard sends it to the single-life lookup, which here returns 7.5. -/
theorem rate_fallback_counterexample :
    tbl_get ([] : JointRateDf) (75, 67) = none ∧
    annuity_rate ⟨75, 67, true, 100000, "Annual", 42/10⟩ [(75, 15/2)] [] = 15/2 ∧
    ((15 : ℚ)/2) ≠ 6 := by
  refine ⟨rfl, by with_unfolding_all rfl, by norm_num⟩

/-- C1 (amended): the resolved rate is exactly 6.0 when a single-life
lookup misses, and when a joint lookup misses against a *non-empty* joint
table; a joint request against an empty joint table instead falls through
to the single-life lookup on the donor age.  No rate miss ever sets the
warning flag: the warning of the full calculation is independent of the
rate tables. -/
theorem rate_fallback_amended (req : GiftRequest) (rt : RateDf)
    (jrt : JointRateDf) (sf : FactorDf) (jf : JointFactorDf) :
    (req.is_joint = false → tbl_get rt req.donor_age = none →
      annuity_rate req rt jrt = 6) ∧
    (req.is_joint = true → jrt ≠ [] →
      tbl_get jrt (req.donor_age, req.joint_annuitant_age) = none →
      annuity_rate req rt jrt = 6) ∧
    (jrt = [] → annuity_rate req rt jrt = (tbl_get rt req.donor_age).getD 6) ∧
    (∀ rt2 jrt2,
      Except.map AnnuityResult.factor_warning (calculate req rt jrt sf jf) =
        Except.map AnnuityResult.factor_warning (calculate req rt2 jrt2 sf jf)) := by
  refine ⟨fun hj hn => ?_, fun hj hne hn => ?_, fun he => ?_, fun rt2 jrt2 => ?_⟩
  · simp [annuity_rate, hj, hn]
  · simp [annuity_rate, hj, hne, hn]
  · subst he
    simp [annuity_rate]
  · rcases hf : annuity_factor req sf jf with e | ⟨f, w⟩ <;>
      simp [calculate, hf, Except.map]

/-- C1 witness: a single-life rate miss and a joint rate miss against a
non-empty joint table, both resolving to 6.0. -/
theorem rate_fallback_amended_witness :
    annuity_rate ⟨80, 67, false, 100000, "Annual", 42/10⟩ [(75, 63/10)] [] = 6 ∧
    annuity_rate ⟨75, 68, true, 100000, "Annual", 42/10⟩ [] [((75, 67), 58/10)] = 6 :=
  ⟨(rate_fallback_amended ⟨80, 67, false, 100000, "Annual", 42/10⟩ [(75, 63/10)]
      [] [] []).1 rfl (by with_unfolding_all rfl),
   (rate_fallback_amended ⟨75, 68, true, 100000, "Annual", 42/10⟩ []
      [((75, 67), 58/10)] [] []).2.1 rfl (by with_unfolding_all decide)
      (by with_unfolding_all rfl)⟩

/-- C5: every result of the calculation satisfies the three arithmetic
identities of lines 124-126 exactly (the embedding computes over `ℚ`, so
there is no rounding anywhere). -/
theorem calculate_arithmetic_identities (req : GiftRequest) (rt : RateDf)
    (jrt : JointRateDf) (sf : FactorDf) (jf : JointFactorDf)
    (res : AnnuityResult) (h : calculate req rt jrt sf jf = Except.ok res) :
    res.adjusted_annuity_factor = res.factor * res.multiplier ∧
    res.annual_payout = req.gift_amount * res.rate / 100 ∧
    res.estimated_deduction = res.annual_payout * res.adjusted_annuity_factor := by
  rcases hf : annuity_factor req sf jf with e | ⟨f, w⟩
  · simp [calculate, hf] at h
  · simp only [calculate, hf, Except.ok.injEq] at h
    subst h
    exact ⟨rfl, rfl, rfl⟩

/-- Scenario-A request: single life, donor 75, gift 100000, annual, 4.2%. -/
def reqA : GiftRequest := ⟨75, 67, false, 100000, "Annual", 42/10⟩

/-- Scenario-A result: rate 6.3, factor 9.5, payout 6300, deduction 59850. -/
def resultA : AnnuityResult := ⟨63/10, 19/2, 1, 19/2, 6300, 59850, false⟩

/-- C5 witness: the identities at the concrete scenario-A run. -/
theorem calculate_arithmetic_identities_witness :
    resultA.adjusted_annuity_factor = resultA.factor * resultA.multiplier ∧
    resultA.annual_payout = reqA.gift_amount * resultA.rate / 100 ∧
    resultA.estimated_deduction =
      resultA.annual_payout * resultA.adjusted_annuity_factor :=
  calculate_arithmetic_identities reqA [(75, 63/10)] [] [(75, [(42, 95/10)])] []
    resultA (by with_unfolding_all rfl)

/-- C8: a joint request uses the ordered pair (donor age, joint annuitant
age) exactly as given, for both the rate and the factor lookup: the hit
returns that key's value and the miss falls back, for every table —
including tables that contain only the reversed pair. -/
theorem joint_lookup_ordered_exact (req : GiftRequest) (rt : RateDf)
    (jrt : JointRateDf) (sf : FactorDf) (jf : JointFactorDf)
    (hj : req.is_joint = true) :
    (∀ r, tbl_get jrt (req.donor_age, req.joint_annuitant_age) = some r →
      annuity_rate req rt jrt = r) ∧
    (jrt ≠ [] → tbl_get jrt (req.donor_age, req.joint_annuitant_age) = none →
      annuity_rate req rt jrt = 6) ∧
    (∀ row v, tbl_get jf (req.donor_age, req.joint_annuitant_age) = some row →
      tbl_get row (rate_column req.irs_7520_rate) = some v →
      annuity_factor req sf jf = Except.ok (v, false)) ∧
    (tbl_get jf (req.donor_age, req.joint_annuitant_age) = none →
      annuity_factor req sf jf = Except.ok (9, true)) := by
  refine ⟨fun r hr => ?_, fun hne hn => ?_, fun row v hrow hv => ?_, fun hn => ?_⟩
  · have hne := tbl_get_ne_nil hr
    simp [annuity_rate, hj, hne, hr]
  · simp [annuity_rate, hj, hne, hn]
  · simp [annuity_factor, hj, hrow, hv]
  · simp [annuity_factor, hj, hn]

/-- C8 witness: with only the reversed pair (67, 75) in the tables, the
request for (75, 67) misses both lookups — the reversed entry is never
consulted. -/
theorem joint_lookup_ordered_exact_witness :
    annuity_rate ⟨75, 67, true, 100000, "Annual", 42/10⟩ [] [((67, 75), 58/10)] = 6 ∧
    annuity_factor ⟨75, 67, true, 100000, "Annual", 42/10⟩ []
      [((67, 75), [(42, 5)])] = Except.ok (9, true) :=
  ⟨(joint_lookup_ordered_exact ⟨75, 67, true, 100000, "Annual", 42/10⟩ []
      [((67, 75), 58/10)] [] [] rfl).2.1 (by with_unfolding_all decide)
      (by with_unfolding_all rfl),
   (joint_lookup_ordered_exact ⟨75, 67, true, 100000, "Annual", 42/10⟩ [] [] []
      [((67, 75), [(42, 5)])] rfl).2.2.2 (by with_unfolding_all rfl)⟩

/-- C2 counterexample: donor age 75 IS in the factor table's index, but the
quantized discount column for 4.9 is absent — the lookup raises `KeyError`
instead of yielding the 9.0 fallback. -/
theorem factor_missing_column_counterexample :
    (tbl_get ([(75, [(42, 95/10)])] : FactorDf) 75).isSome = true ∧
    annuity_factor ⟨75, 67, false, 100000, "Annual", 49/10⟩
      [(75, [(42, 95/10)])] [] = Except.error PandasError.keyError := by
  exact ⟨rfl, by with_unfolding_all rfl⟩

/-- C2 (amended): the 9.0 fallback (without exception) applies exactly when
the age (or age pair) is absent from the factor table's *index*; when the
index key is present but the quantized discount column is absent, the
lookup raises `KeyError` and the calculation aborts. -/
theorem factor_missing_column_amended (req : GiftRequest) (sf : FactorDf)
    (jf : JointFactorDf) (row : List (ℤ × ℚ)) :
    (req.is_joint = false → tbl_get sf req.donor_age = some row →
      tbl_get row (rate_column req.irs_7520_rate) = none →
      annuity_factor req sf jf = Except.error PandasError.keyError) ∧
    (req.is_joint = true →
      tbl_get jf (req.donor_age, req.joint_annuitant_age) = some row →
      tbl_get row (rate_column req.irs_7520_rate) = none →
      annuity_factor req sf jf = Except.error PandasError.keyError) ∧
    (req.is_joint = false → tbl_get sf req.donor_age = none →
      annuity_factor req sf jf = Except.ok (9, true)) := by
  refine ⟨fun hj hrow hcol => ?_, fun hj hrow hcol => ?_, fun hj hn => ?_⟩
  · simp [annuity_factor, hj, hrow, hcol]
  · simp [annuity_factor, hj, hrow, hcol]
  · simp [annuity_factor, hj, hn]

/-- C2 witness: a missing discount column with the age present raises the
error; the same request with an absent age gets the 9.0 fallback. -/
theorem factor_missing_column_amended_witness :
    annuity_factor ⟨70, 60, false, 5000, "Monthly", 37/10⟩ [(70, [(40, 9)])] [] =
      Except.error PandasError.keyError ∧
    annuity_factor ⟨71, 60, false, 5000, "Monthly", 37/10⟩ [(70, [(40, 9)])] [] =
      Except.ok (9, true) :=
  ⟨(factor_missing_column_amended ⟨70, 60, false, 5000, "Monthly", 37/10⟩
      [(70, [(40, 9)])] [] [(40, 9)]).1 rfl (by with_unfolding_all rfl)
      (by with_unfolding_all rfl),
   (factor_missing_column_amended ⟨71, 60, false, 5000, "Monthly", 37/10⟩
      [(70, [(40, 9)])] [] []).2.2 rfl (by with_unfolding_all rfl)⟩

/-- C3 counterexample: gift amounts 0 and -100 are not rejected — the
calculation silently produces numeric results with zero and negative
payout/deduction, with no `InvalidInput` signal anywhere in lines 98-126. -/
theorem invalid_input_counterexample :
    calculate ⟨75, 67, false, 0, "Annual", 42/10⟩ [(75, 63/10)] []
      [(75, [(42, 95/10)])] [] =
      Except.ok ⟨63/10, 19/2, 1, 19/2, 0, 0, false⟩ ∧
    calculate ⟨75, 67, false, -100, "Annual", 42/10⟩ [(75, 63/10)] []
      [(75, [(42, 95/10)])] [] =
      Except.ok ⟨63/10, 19/2, 1, 19/2, -63/10, -1197/20, false⟩ := by
  exact ⟨by with_unfolding_all rfl, by with_unfolding_all rfl⟩

/-- C3 (amended): the calculation itself performs no gift-amount
validation: for `gift_amount ≤ 0` it still returns a numeric result whose
payout is `gift_amount * rate / 100`, and whether it succeeds is decided
by the factor lookup alone; such amounts are instead excluded upstream by
the widget's `min_value=1000` bound (line 94). -/
theorem gift_amount_no_validation (req : GiftRequest) (rt : RateDf)
    (jrt : JointRateDf) (sf : FactorDf) (jf : JointFactorDf)
    (h : req.gift_amount ≤ 0) :
    (∀ res, calculate req rt jrt sf jf = Except.ok res →
      res.annual_payout = req.gift_amount * annuity_rate req rt jrt / 100) ∧
    ¬ gift_amount_min ≤ req.gift_amount ∧
    (calculate req rt jrt sf jf).toOption.isSome =
      (annuity_factor req sf jf).toOption.isSome := by
  refine ⟨fun res hres => ?_, fun hc => ?_, ?_⟩
  · rcases hf : annuity_factor req sf jf with e | ⟨f, w⟩
    · simp [calculate, hf] at hres
    · simp only [calculate, hf, Except.ok.injEq] at hres
      subst hres
      rfl
  · unfold gift_amount_min at hc
    linarith
  · rcases hf : annuity_factor req sf jf with e | ⟨f, w⟩ <;>
      simp [calculate, hf, Except.toOption]

/-- C3 witness: a zero gift amount violates the widget bound (and the
amended theorem applies to it). -/
theorem gift_amount_no_validation_witness :
    ¬ gift_amount_min ≤
      ((⟨75, 67, false, 0, "Annual", 42/10⟩ : GiftRequest)).gift_amount :=
  (gift_amount_no_validation ⟨75, 67, false, 0, "Annual", 42/10⟩ [] [] [] []
    (by with_unfolding_all decide)).2.1

/-- C4 counterexample: a joint pair present in the factor index with the
discount column for 3.0 absent raises `KeyError` — neither the 9.0
fallback nor the warning happens, contradicting the claim's universal
"(age1, age2, discount-key) absent implies 9.0 with warning". -/
theorem factor_warning_counterexample :
    tbl_get ([((75, 67), [(42, 84/10)])] : JointFactorDf) (75, 67) =
      some [(42, 84/10)] ∧
    annuity_factor ⟨75, 67, true, 100000, "Annual", 3⟩ []
      [((75, 67), [(42, 84/10)])] = Except.error PandasError.keyError ∧
    (Except.error PandasError.keyError : Except PandasError (ℚ × Bool)) ≠
      Except.ok (9, true) := by
  refine ⟨rfl, by with_unfolding_all rfl, by simp⟩

/-- C4 (amended): when the age (or pair) is absent from the factor table's
*index*, the factor is exactly 9.0 with the warning raised; an index hit
with the column present returns the table value with no warning, so a
warning implies the 9.0 fallback; and the warning flag never depends on
the rate tables (the rate fallback does not warn). -/
theorem factor_fallback_warning_amended (req : GiftRequest) (rt : RateDf)
    (jrt : JointRateDf) (sf : FactorDf) (jf : JointFactorDf) :
    (req.is_joint = true →
      tbl_get jf (req.donor_age, req.joint_annuitant_age) = none →
      annuity_factor req sf jf = Except.ok (9, true)) ∧
    (req.is_joint = false → tbl_get sf req.donor_age = none →
      annuity_factor req sf jf = Except.ok (9, true)) ∧
    (∀ f w, annuity_factor req sf jf = Except.ok (f, w) → w = true → f = 9) ∧
    (∀ rt2 jrt2 res res', calculate req rt jrt sf jf = Except.ok res →
      calculate req rt2 jrt2 sf jf = Except.ok res' →
      res.factor_warning = res'.factor_warning) := by
  refine ⟨fun hj hn => ?_, fun hj hn => ?_, fun f w hok hw => ?_,
    fun rt2 jrt2 res res' h1 h2 => ?_⟩
  · simp [annuity_factor, hj, hn]
  · simp [annuity_factor, hj, hn]
  · cases hb : req.is_joint with
    | true =>
      cases hjf : tbl_get jf (req.donor_age, req.joint_annuitant_age) with
      | none =>
        simp [annuity_factor, hb, hjf] at hok
        exact hok.1.symm
      | some row =>
        cases hcol : tbl_get row (rate_column req.irs_7520_rate) with
        | none => simp [annuity_factor, hb, hjf, hcol] at hok
        | some v =>
          simp [annuity_factor, hb, hjf, hcol] at hok
          simp [hok.2] at hw
    | false =>
      cases hsf : tbl_get sf req.donor_age with
      | none =>
        simp [annuity_factor, hb, hsf] at hok
        exact hok.1.symm
      | some row =>
        cases hcol : tbl_get row (rate_column req.irs_7520_rate) with
        | none => simp [annuity_factor, hb, hsf, hcol] at hok
        | some v =>
          simp [annuity_factor, hb, hsf, hcol] at hok
          simp [hok.2] at hw
  · rcases hf : annuity_factor req sf jf with e | ⟨f, w⟩
    · simp [calculate, hf] at h1
    · simp only [calculate, hf, Except.ok.injEq] at h1 h2
      subst h1
      subst h2
      rfl

/-- C4 witness: index misses (joint and single) both yield the 9.0
fallback with the warning set. -/
theorem factor_fallback_warning_amended_witness :
    annuity_factor ⟨75, 67, true, 100000, "Annual", 42/10⟩ [] [] =
      Except.ok (9, true) ∧
    annuity_factor ⟨75, 67, false, 100000, "Annual", 42/10⟩ [] [] =
      Except.ok (9, true) :=
  ⟨(factor_fallback_warning_amended ⟨75, 67, true, 100000, "Annual", 42/10⟩
      [] [] [] []).1 rfl rfl,
   (factor_fallback_warning_amended ⟨75, 67, false, 100000, "Annual", 42/10⟩
      [] [] [] []).2.1 rfl rfl⟩
